import Mathlib

/-
Verification of the MusicBot queue + readiness pipeline.

Shallow embedding of the queue/entry/event/downloader/serialization core
(src/musicbot/playlist.py, entry.py, lib/event_emitter.py, downloader.py,
constructs.py). Python None is Option.none; exceptions are Except errors or
explicit raised-flags where the exception is caught by the caller.
-/

namespace MusicBot

/-! ## ETA estimation (Playlist.estimate_time_until, playlist.py lines 527-559) -/

/-- Embeds Playlist.estimate_time_until. The queue is abstracted to the list of
entry durations (none = Python None, i.e. unknown; a known duration may be 0).
playing is some (duration, progress) when the player is not stopped and has a
current entry (the only case in which the source adds the current entry's
remaining time), none otherwise. pos is the 1-based external position; the
source does pos -= 1 and then islice(self.entries, pos). Returns the estimated
seconds or the InvalidDataError message raised by the source. -/
def estimate_time_until (entries : List (Option Int)) (pos : Nat)
    (playing : Option (Option Int × Int)) : Except String Int :=
  let p := pos - 1
  if ((entries.take p).any fun e => e.isNone) then
    Except.error "no duration data"
  else
    let estimated : Int := ((entries.take p).map fun e => e.getD 0).sum
    match playing with
    | none => Except.ok estimated
    | some (dur, progress) =>
      match dur with
      | none => Except.error "no duration data in current entry"
      | some d => Except.ok (estimated + (d - progress))

/-! ## Queue order (Playlist._add_entry / add_entry / import_from) -/

/-- Embeds the deque bookkeeping of Playlist._add_entry (appendleft on head,
append otherwise) together with the position Playlist.add_entry returns
(1 if head else len(self.entries), taken after the insertion). Entries are
identified by allocation ids. -/
def add_entry (entries : List Nat) (e : Nat) (head : Bool) : List Nat × Nat :=
  let entries2 := if head then e :: entries else entries ++ [e]
  (entries2, if head then 1 else entries2.length)

/-- One sub-item of a playlist-like listing, as iterated by
Playlist.import_from: Python items may be falsy (modelled by Option.none at
the list level), and constructing URLPlaylistEntry from an item may raise
(ok = false). sid is the allocation id of the entry the item would produce. -/
structure SubItem where
  sid : Nat
  ok : Bool
deriving DecidableEq

/-- Result of Playlist.import_from: the returned entry list, the returned
position, the playlist queue after the call, and the baditems counter. -/
structure ImportResult where
  entry_list : List Nat
  position : Nat
  queue : List Nat
  baditems : Nat
deriving DecidableEq

/-- Embeds Playlist.import_from (playlist.py lines 269-343), restricted to its
order and failure bookkeeping. Faithful to the source: position is computed
before any insertion; the source builds a reversed copy of the listing when
head is set (local variable entries) but the loop below it iterates the
ORIGINAL info list, so the reversed copy is dead — it is kept here as the
unused reversedCopy binding; each surviving item goes through _add_entry with
the same head flag and is appended to entry_list; falsy or failing items only
bump baditems; finally entry_list is reversed again when head is set. -/
def import_from (queue : List Nat) (items : List (Option SubItem))
    (head : Bool) : ImportResult :=
  let position := if head then 1 else queue.length + 1
  let reversedCopy := if head then items.reverse else items
  let step := fun (acc : List Nat × List Nat × Nat) (it : Option SubItem) =>
    match it with
    | none => (acc.1, acc.2.1, acc.2.2 + 1)
    | some item =>
      if item.ok then
        ((add_entry acc.1 item.sid head).1, acc.2.1 ++ [item.sid], acc.2.2)
      else
        (acc.1, acc.2.1, acc.2.2 + 1)
  let r := items.foldl step (queue, [], 0)
  let _ := reversedCopy
  { entry_list := if head then r.2.1.reverse else r.2.1,
    position := position,
    queue := r.1,
    baditems := r.2.2 }

/-! ## Event bus (EventEmitter, lib/event_emitter.py) -/

/-- A callback registered on the event bus. plain i is an ordinary synchronous
callback whose body records its id when run; bad i is a synchronous callback
whose body records its id and then raises; onceWrapper ev i is the closure
that EventEmitter.once registers for (ev, plain i): its body first calls
self.off(ev, cb) with the ORIGINAL callback (plain i, not the wrapper itself)
and only then runs the original body. Asynchronous callbacks (scheduled via
ensure_future) are outside this model. -/
inductive Cb where
  | plain (i : Nat)
  | bad (i : Nat)
  | onceWrapper (ev : String) (i : Nat)
deriving DecidableEq

/-- The id of the callback body a Cb ultimately runs. -/
def Cb.cbId : Cb → Nat
  | Cb.plain i => i
  | Cb.bad i => i
  | Cb.onceWrapper _ i => i

/-- True for callbacks that are not once-wrappers. -/
def Cb.isDirect : Cb → Bool
  | Cb.plain _ => true
  | Cb.bad _ => true
  | Cb.onceWrapper _ _ => false

/-- State of an EventEmitter: the _events registry (defaultdict(list),
modelled as an association list in insertion order) and the log of callback
body invocations observed so far. -/
structure Emitter where
  events : List (String × List Cb)
  calls : List Nat
deriving DecidableEq

/-- Association-list lookup for the _events registry. -/
def lookupEvent (es : List (String × List Cb)) (ev : String) :
    Option (List Cb) :=
  match es.find? (fun p => p.1 == ev) with
  | some p => some p.2
  | none => none

/-- Replaces the callback list stored under an existing event key. -/
def setEvent (es : List (String × List Cb)) (ev : String) (l : List Cb) :
    List (String × List Cb) :=
  match es with
  | [] => [(ev, l)]
  | p :: rest =>
    if p.1 == ev then (ev, l) :: rest else p :: setEvent rest ev l

/-- Deletes an event key (del self._events[event]). -/
def delEvent (es : List (String × List Cb)) (ev : String) :
    List (String × List Cb) :=
  es.filter (fun p => !(p.1 == ev))

/-- Embeds EventEmitter.on: self._events[event].append(cb); the defaultdict
creates the key on first use. -/
def emitterOn (s : Emitter) (ev : String) (cb : Cb) : Emitter :=
  match lookupEvent s.events ev with
  | some l => { s with events := setEvent s.events ev (l ++ [cb]) }
  | none => { s with events := s.events ++ [(ev, [cb])] }

/-- Embeds EventEmitter.off. list.remove raises ValueError when the callback
is not present (the returned Bool is the raised flag); on a missing key the
defaultdict first creates an empty list and remove then raises. When the
remaining list is empty the key is deleted. -/
def emitterOff (s : Emitter) (ev : String) (cb : Cb) : Emitter × Bool :=
  match lookupEvent s.events ev with
  | none => ({ s with events := s.events ++ [(ev, [])] }, true)
  | some l =>
    if cb ∈ l then
      let l2 := l.erase cb
      if l2.isEmpty then ({ s with events := delEvent s.events ev }, false)
      else ({ s with events := setEvent s.events ev l2 }, false)
    else (s, true)

/-- Runs one callback body. Returns the state after the call and whether the
call raised. A once-wrapper first calls off with the original callback; if
that raises, the wrapped body is never reached. -/
def invoke (s : Emitter) (cb : Cb) : Emitter × Bool :=
  match cb with
  | Cb.plain i => ({ s with calls := s.calls ++ [i] }, false)
  | Cb.bad i => ({ s with calls := s.calls ++ [i] }, true)
  | Cb.onceWrapper ev i =>
    let r := emitterOff s ev (Cb.plain i)
    if r.2 then (r.1, true)
    else ({ r.1 with calls := r.1.calls ++ [i] }, false)

/-- Embeds EventEmitter.emit: returns unchanged when the event has no key;
otherwise iterates a snapshot (list(self._events[event])) of the registered
callbacks, catching (and discarding) any exception a callback raises, so a
raising callback never stops its siblings and nothing propagates to the
publisher — which is why this function is total. -/
def emit (s : Emitter) (ev : String) : Emitter :=
  match lookupEvent s.events ev with
  | none => s
  | some snapshot => snapshot.foldl (fun st cb => (invoke st cb).1) s

/-- Embeds EventEmitter.once for an ordinary callback plain i: registers the
wrapper closure (which captures the event name and the original callback). -/
def once (s : Emitter) (ev : String) (i : Nat) : Emitter :=
  emitterOn s ev (Cb.onceWrapper ev i)

/-! ## Extraction dispatcher (Downloader.extract_info, downloader.py 65-111) -/

/-- Outcome of the blocking unsafe_ytdl.extract_info call run in the thread
pool: a result dictionary (abstracted to a token) or a raised exception. -/
inductive ExtractOutcome where
  | ok (result : Nat)
  | raises (e : Nat)
deriving DecidableEq

/-- Observable behaviour of one Downloader.extract_info call: what it returns
to its awaiter (Except.error means the exception propagated; Except.ok none is
Python returning None), the exceptions routed to the on_error hook, and
whether the tolerant safe_extract_info path was invoked. -/
structure ExtractRun where
  returned : Except Nat (Option Nat)
  hookCalls : List Nat
  safeRetry : Bool

/-- Embeds Downloader.extract_info. onErrorCallable is callable(on_error);
unsafeOutcome is what the pooled unsafe extraction does; safeResult is what
safe_extract_info would return if consulted. With a callable hook, an
exception is caught and routed to the hook (the sync/coroutine dispatch
variants are collapsed into hookCalls); with retry_on_error the call is then
recomputed through safe_extract_info, and without it control falls off the
end of the function, returning None. Without a hook the exception propagates
to the caller. -/
def extract_info (onErrorCallable : Bool) (retryOnError : Bool)
    (unsafeOutcome : ExtractOutcome) (safeResult : Nat) : ExtractRun :=
  if onErrorCallable then
    match unsafeOutcome with
    | ExtractOutcome.ok r =>
      { returned := Except.ok (some r), hookCalls := [], safeRetry := false }
    | ExtractOutcome.raises e =>
      if retryOnError then
        { returned := Except.ok (some safeResult), hookCalls := [e],
          safeRetry := true }
      else
        { returned := Except.ok none, hookCalls := [e], safeRetry := false }
  else
    match unsafeOutcome with
    | ExtractOutcome.ok r =>
      { returned := Except.ok (some r), hookCalls := [], safeRetry := false }
    | ExtractOutcome.raises e =>
      { returned := Except.error e, hookCalls := [], safeRetry := false }

/-! ## Entry readiness state machine (BasePlaylistEntry, entry.py)

One entry together with the futures its get_ready_future calls created and
the download tasks ensure_future scheduled. Future results: Except.ok () is
future.set_result(self); Except.error e is future.set_exception(e). -/

/-- The mutable per-entry fields of BasePlaylistEntry: filename (None until an
artifact or stream destination is materialized), the _is_downloading flag, and
_waiting_futures (future ids in registration order). -/
structure EntryState where
  filename : Option String
  isDownloading : Bool
  waitingFutures : List Nat

/-- Embeds the is_downloaded property: False while _is_downloading, otherwise
bool(self.filename). -/
def is_downloaded (e : EntryState) : Bool :=
  if e.isDownloading then false else e.filename.isSome

/-- An entry plus the world around it: every future created so far (id paired
with none while pending, some r once resolved with r), the id for the next
future, how many download tasks were scheduled via ensure_future, and how many
times a download body actually began executing. -/
structure EntryWorld where
  entry : EntryState
  futures : List (Nat × Option (Except Nat Unit))
  nextFid : Nat
  spawnedTasks : Nat
  downloadExecs : Nat

/-- Embeds BasePlaylistEntry.get_ready_future: when already downloaded the new
future resolves immediately with the entry; otherwise the future is appended to
_waiting_futures and ensure_future schedules another _download task. Returns
the id of the created future. -/
def get_ready_future (w : EntryWorld) : EntryWorld × Nat :=
  let fid := w.nextFid
  if is_downloaded w.entry then
    ({ w with
        futures := w.futures ++ [(fid, some (Except.ok ()))]
        nextFid := fid + 1 }, fid)
  else
    ({ w with
        entry := { w.entry with
          waitingFutures := w.entry.waitingFutures ++ [fid] }
        futures := w.futures ++ [(fid, none)]
        nextFid := fid + 1
        spawnedTasks := w.spawnedTasks + 1 }, fid)

/-- Embeds _for_each_future combined with the resolution callback: every future
in the waiting list is resolved with the given result, the rest are untouched. -/
def resolveFutures (futures : List (Nat × Option (Except Nat Unit)))
    (waiting : List Nat) (res : Except Nat Unit) :
    List (Nat × Option (Except Nat Unit)) :=
  futures.map (fun p => if p.1 ∈ waiting then (p.1, some res) else p)

/-- First scheduler slice of URLPlaylistEntry._download: the re-entrancy guard
(if self._is_downloading: return) followed by self._is_downloading = True. The
returned Bool says whether this task entered the download body; entering is
counted as one underlying download execution. Everything after this point sits
behind awaits and runs in a later slice. -/
def urlDownloadStart (w : EntryWorld) : EntryWorld × Bool :=
  if w.entry.isDownloading then (w, false)
  else
    ({ w with
        entry := { w.entry with isDownloading := true }
        downloadExecs := w.downloadExecs + 1 }, true)

/-- Final slice of URLPlaylistEntry._download: on success the artifact filename
is set and every waiting future gets set_result(self); on failure every waiting
future gets set_exception(e); _waiting_futures is drained either way and the
finally block clears _is_downloading. -/
def urlDownloadFinish (w : EntryWorld) (outcome : Except Nat String) :
    EntryWorld :=
  let res : Except Nat Unit :=
    match outcome with
    | Except.ok _ => Except.ok ()
    | Except.error e => Except.error e
  let fname : Option String :=
    match outcome with
    | Except.ok f => some f
    | Except.error _ => w.entry.filename
  { w with
      entry := { filename := fname, isDownloading := false,
                 waitingFutures := [] }
      futures := resolveFutures w.futures w.entry.waitingFutures res }

/-- First scheduler slice of StreamPlaylistEntry._download: unlike the URL
variant there is no guard — the body sets self._is_downloading = True
unconditionally and proceeds to the awaited extraction, so every scheduled
task enters the download body. -/
def streamDownloadStart (w : EntryWorld) : EntryWorld × Bool :=
  ({ w with
      entry := { w.entry with isDownloading := true }
      downloadExecs := w.downloadExecs + 1 }, true)

/-- Final slice of StreamPlaylistEntry._download on a successful resolution:
self.filename = result['url'] and the finally block clears _is_downloading.
Note that the stream variant never touches _waiting_futures. -/
def streamDownloadFinish (w : EntryWorld) (resultUrl : String) : EntryWorld :=
  { w with
      entry := { w.entry with
        filename := some resultUrl
        isDownloading := false } }

/-- An entry that has never been downloaded and has no readiness activity: a
fresh URLPlaylistEntry, or a fresh StreamPlaylistEntry without destination. -/
def freshEntryWorld : EntryWorld :=
  { entry := { filename := none, isDownloading := false,
               waitingFutures := [] },
    futures := [], nextFid := 0, spawnedTasks := 0, downloadExecs := 0 }

/-- The asyncio trace of N concurrent readiness requests on a fresh URL entry:
the N get_ready_future calls run in one scheduler tick, ensure_future queues
the N download tasks FIFO, each task then runs its guard slice in spawn order
(all before any extraction can complete, since completion needs the executor
round trip), and finally each task that entered the body completes it with the
given outcome. -/
def urlScenario (n : Nat) (outcome : Except Nat String) : EntryWorld :=
  let w1 := (fun w => (get_ready_future w).1)^[n] freshEntryWorld
  let wA := (fun w => (urlDownloadStart w).1)^[w1.spawnedTasks] w1
  (fun w => urlDownloadFinish w outcome)^[wA.downloadExecs] wA

/-- The same trace for a fresh stream entry (no destination), with every task
that entered the body completing it successfully. -/
def streamScenario (n : Nat) (resultUrl : String) : EntryWorld :=
  let w1 := (fun w => (get_ready_future w).1)^[n] freshEntryWorld
  let wA := (fun w => (streamDownloadStart w).1)^[w1.spawnedTasks] w1
  (fun w => streamDownloadFinish w resultUrl)^[wA.downloadExecs] wA

/-! ## Playlist advance (Playlist.get_next_entry / peek, playlist.py 497-525) -/

/-- A queued entry as the playlist sees it: its allocation id and the per-entry
readiness fields (waitingCount abstracts the length of _waiting_futures). -/
structure PlEntry where
  eid : Nat
  filename : Option String
  isDownloading : Bool
  waitingCount : Nat
deriving DecidableEq

/-- Embeds get_ready_future at the playlist level: the returned Bool is true
when the created future resolved immediately (entry already downloaded),
false when a future was registered (and a download task spawned). -/
def requestReady (e : PlEntry) : PlEntry × Bool :=
  if (if e.isDownloading then false else e.filename.isSome) then (e, true)
  else ({ e with waitingCount := e.waitingCount + 1 }, false)

/-- Embeds Playlist.get_next_entry: returns none on an empty queue; otherwise
pops the head, requests readiness of the new head (self.peek()) when
predownloadNext is set, and awaits the popped entry's own readiness future.
The returned pair is (popped entry after its readiness request, whether that
future resolved immediately); the second component of the result is the queue
after the call. -/
def get_next_entry (entries : List PlEntry) (predownloadNext : Bool) :
    Option (PlEntry × Bool) × List PlEntry :=
  match entries with
  | [] => (none, [])
  | e :: rest =>
    let rest2 :=
      if predownloadNext then
        match rest with
        | [] => []
        | nxt :: t => (requestReady nxt).1 :: t
      else rest
    (some (requestReady e), rest2)

/-- Embeds Playlist.peek: the head of the deque, none when empty. -/
def peek (entries : List PlEntry) : Option PlEntry :=
  entries.head?

/-! ## Serialization bridge (constructs.py Serializer / entry._deserialize /
Playlist._deserialize) -/

/-- A JSON literal as stored in a persisted record's payload. -/
inductive JLit where
  | null
  | bool (b : Bool)
  | num (n : Int)
  | str (s : String)
deriving DecidableEq

/-- Python truthiness of a JSON literal. -/
def JLit.truthy : JLit → Bool
  | JLit.null => false
  | JLit.bool b => b
  | JLit.num n => !(n == 0)
  | JLit.str s => !(s == "")

/-- Python int() coercion as used on persisted meta ids: an int passes
through, a numeric string is parsed, anything else raises. -/
def JLit.toIntCoerce : JLit → Except Unit Int
  | JLit.num n => Except.ok n
  | JLit.str s =>
    match s.toInt? with
    | some n => Except.ok n
    | none => Except.error ()
  | _ => Except.error ()

/-- The data payload of a persisted entry record: its literal fields plus the
nested meta dictionary when the meta key is present. -/
structure EntryPayload where
  fields : List (String × JLit)
  meta : Option (List (String × JLit))
deriving DecidableEq

/-- Dictionary access data[k]: Except.error is a KeyError. -/
def getKey (fields : List (String × JLit)) (k : String) : Except Unit JLit :=
  match fields.find? (fun p => p.1 == k) with
  | some p => Except.ok p.2
  | none => Except.error ()

/-- A persisted record object as Serializer.deserialize receives it: the
signature keys may each be absent. -/
structure JObj where
  className : Option String
  moduleName : Option String
  data : Option EntryPayload
deriving DecidableEq

/-- The fields a reconstructed URLPlaylistEntry carries (runtime handles such
as the session, config, downloader and loop are injected, never persisted). -/
structure UrlEntry where
  url : JLit
  title : JLit
  duration : JLit
  expected_filename : JLit
  filename : Option JLit
  channel : Option Int
  author : Option Int
deriving DecidableEq

/-- The fields a reconstructed StreamPlaylistEntry carries. -/
structure StreamEntry where
  url : JLit
  title : JLit
  destination : JLit
  filename : Option JLit
  channel : Option Int
  author : Option Int
deriving DecidableEq

/-- The try-block of URLPlaylistEntry._deserialize (entry.py lines 159-209):
required field reads raise KeyError when absent; downloaded is only trusted
when config.save_videos; meta ids are int()-coerced (tolerating old
string-typed records). The surrounding except block turns any error into a
logged None, see urlDeserialize. -/
def urlDeserializeBody (saveVideos : Bool) (d : EntryPayload) :
    Except Unit UrlEntry := do
  let url ← getKey d.fields "url"
  let title ← getKey d.fields "title"
  let duration ← getKey d.fields "duration"
  let downloaded ←
    if saveVideos then getKey d.fields "downloaded"
    else pure (JLit.bool false)
  let filename ←
    if downloaded.truthy then (getKey d.fields "filename").map some
    else pure none
  let expected ← getKey d.fields "expected_filename"
  let metaDict ←
    match d.meta with
    | some m => Except.ok m
    | none => Except.error ()
  let channel ←
    match metaDict.find? (fun p => p.1 == "channel") with
    | some p => (p.2.toIntCoerce).map some
    | none => pure none
  let author ←
    match metaDict.find? (fun p => p.1 == "author") with
    | some p => (p.2.toIntCoerce).map some
    | none => pure none
  pure { url := url, title := title, duration := duration,
         expected_filename := expected, filename := filename,
         channel := channel, author := author }

/-- URLPlaylistEntry._deserialize: the except-block absorbs every failure of
the body and returns None. -/
def urlDeserialize (saveVideos : Bool) (d : EntryPayload) : Option UrlEntry :=
  (urlDeserializeBody saveVideos d).toOption

/-- The try-block of StreamPlaylistEntry._deserialize (entry.py lines
589-630), including the constructor's filename-from-destination assignment
and the quirky post-construction fixup (if not destination and filename:
entry.filename = destination). -/
def streamDeserializeBody (d : EntryPayload) : Except Unit StreamEntry := do
  let url ← getKey d.fields "url"
  let title ← getKey d.fields "title"
  let destination ← getKey d.fields "destination"
  let filename ← getKey d.fields "filename"
  let metaDict ←
    match d.meta with
    | some m => Except.ok m
    | none => Except.error ()
  let channel ←
    match metaDict.find? (fun p => p.1 == "channel") with
    | some p => (p.2.toIntCoerce).map some
    | none => pure none
  let author ←
    match metaDict.find? (fun p => p.1 == "author") with
    | some p => (p.2.toIntCoerce).map some
    | none => pure none
  let fname0 : Option JLit :=
    if destination.truthy then some destination else none
  let fname : Option JLit :=
    if (!destination.truthy) && filename.truthy then some destination
    else fname0
  pure { url := url, title := title, destination := destination,
         filename := fname, channel := channel, author := author }

/-- StreamPlaylistEntry._deserialize: the except-block absorbs every failure
of the body and returns None. -/
def streamDeserialize (d : EntryPayload) : Option StreamEntry :=
  (streamDeserializeBody d).toOption

/-- What Serializer.deserialize leaves behind for one record: a reconstructed
entry, None when the matched factory's _deserialize caught an exception, or
the record returned unchanged when the signature keys are missing or the
discriminator resolves to no known Serializable class. -/
inductive Decoded where
  | urlEntry (e : UrlEntry)
  | streamEntry (e : StreamEntry)
  | failed
  | raw (r : JObj)
deriving DecidableEq

/-- The Serializable classes of these sources that pydoc.locate can resolve
from a persisted discriminator module.qualname: besides the two concrete
entry variants there are their abstract base BasePlaylistEntry, the
Serializable root itself, and Playlist. (MusicPlayer lives in player.py,
outside these sources, and is not modelled.) -/
inductive KnownClass where
  | urlEntryClass
  | streamEntryClass
  | baseEntryClass
  | serializableClass
  | playlistClass
deriving DecidableEq

/-- Embeds the pydoc.locate call of Serializer.deserialize combined with the
issubclass(factory, Serializable) check: a path naming one of the program's
Serializable classes resolves to it; any other path (a missing name, or a
name that is not a Serializable subclass) yields none and the record falls
through. -/
def locateClass (path : String) : Option KnownClass :=
  if path = "musicbot.entry.URLPlaylistEntry" then
    some KnownClass.urlEntryClass
  else if path = "musicbot.entry.StreamPlaylistEntry" then
    some KnownClass.streamEntryClass
  else if path = "musicbot.entry.BasePlaylistEntry" then
    some KnownClass.baseEntryClass
  else if path = "musicbot.constructs.Serializable" then
    some KnownClass.serializableClass
  else if path = "musicbot.playlist.Playlist" then
    some KnownClass.playlistClass
  else none

/-- An exception escaping Serializer.deserialize and aborting the decode:
NotImplementedError from the inherited Serializable._deserialize
(constructs.py lines 114-116), or KeyError from Playlist._deserialize reading
data[entries] on a payload that has no entries key. -/
inductive DecodeErr where
  | notImplemented
  | keyError
deriving DecidableEq

/-- Embeds Serializer.deserialize (constructs.py lines 52-66) for per-entry
records: when all three signature keys are present the discriminator
module.class is resolved by pydoc.locate and checked against Serializable,
and that class's _deserialize is applied to the data payload; unresolved (or
non-Serializable) discriminators fall through to return the record as plain
data. BasePlaylistEntry and Serializable do not override _deserialize, so
dispatching to them raises NotImplementedError, uncaught here;
Playlist._deserialize (no try-block) raises KeyError on an entry-style
payload, which has no entries key. The injected runtime context (session,
config, downloader, loop) collected by _get_vars is taken as supplied, so the
_deserialize assertions pass; only config.save_videos is observable here. -/
def serializerDeserialize (saveVideos : Bool) (r : JObj) :
    Except DecodeErr Decoded :=
  match r.className, r.moduleName, r.data with
  | some c, some m, some d =>
    match locateClass (m ++ "." ++ c) with
    | some KnownClass.urlEntryClass =>
      match urlDeserialize saveVideos d with
      | some e => Except.ok (Decoded.urlEntry e)
      | none => Except.ok Decoded.failed
    | some KnownClass.streamEntryClass =>
      match streamDeserialize d with
      | some e => Except.ok (Decoded.streamEntry e)
      | none => Except.ok Decoded.failed
    | some KnownClass.baseEntryClass => Except.error DecodeErr.notImplemented
    | some KnownClass.serializableClass =>
      Except.error DecodeErr.notImplemented
    | some KnownClass.playlistClass => Except.error DecodeErr.keyError
    | none => Except.ok (Decoded.raw r)
  | _, _, _ => Except.ok (Decoded.raw r)

/-- Modelled from the spec: MusicPlayer.from_json (player.py, which is not
part of the sources here) feeds the persisted JSON through the decoder with
Serializer.deserialize as the per-object hook, so every entry record is
decoded individually (bottom-up, in document order) before the queue record
itself, and the first exception escaping the hook aborts the whole decode;
when every record decodes, Playlist._deserialize (playlist.py lines 571-593)
appends each already-decoded item to a fresh deque in order. -/
def decodeQueue (saveVideos : Bool) (entryRecords : List JObj) :
    Except DecodeErr (List Decoded) :=
  match entryRecords with
  | [] => Except.ok []
  | r :: rest =>
    match serializerDeserialize saveVideos r with
    | Except.error e => Except.error e
    | Except.ok v =>
      match decodeQueue saveVideos rest with
      | Except.error e => Except.error e
      | Except.ok vs => Except.ok (v :: vs)

/-- A well-formed persisted URL entry record (shape of
URLPlaylistEntry.__json__). -/
def goodUrlRecord : JObj :=
  { className := some "URLPlaylistEntry",
    moduleName := some "musicbot.entry",
    data := some
      { fields := [("url", JLit.str "https4"), ("title", JLit.str "t1"),
                   ("duration", JLit.num 30),
                   ("expected_filename", JLit.str "a.m4a")],
        meta := some [] } }

/-- A second well-formed persisted URL entry record. -/
def goodUrlRecord2 : JObj :=
  { className := some "URLPlaylistEntry",
    moduleName := some "musicbot.entry",
    data := some
      { fields := [("url", JLit.str "https5"), ("title", JLit.str "t2"),
                   ("duration", JLit.num 45),
                   ("expected_filename", JLit.str "b.m4a")],
        meta := some [] } }

/-- An entry record whose type discriminator names no existing class
(pydoc.locate returns None for it). -/
def unknownRecord : JObj :=
  { className := some "FilePlaylistEntry",
    moduleName := some "musicbot.entry",
    data := some { fields := [("url", JLit.str "x")], meta := some [] } }

/-- A URL entry record whose required url field is absent from the payload. -/
def missingUrlRecord : JObj :=
  { className := some "URLPlaylistEntry",
    moduleName := some "musicbot.entry",
    data := some { fields := [("title", JLit.str "t3")], meta := some [] } }

/-- An entry record tagged with the abstract base class: its discriminator
matches no concrete entry variant, but pydoc.locate resolves it and the
issubclass check passes, so dispatch reaches the inherited
Serializable._deserialize, which raises NotImplementedError. -/
def baseEntryRecord : JObj :=
  { className := some "BasePlaylistEntry",
    moduleName := some "musicbot.entry",
    data := some { fields := [("url", JLit.str "x")], meta := some [] } }


/-! # Theorems -/

/-! ## C6: FIFO with head-insert -/

/-- C6: starting from an empty queue, add(A), add(B), then add(C, head=true)
yields the queue order [C, A, B]; in general a tail add appends the entry at
the back and returns a position equal to the new queue length, while a head
add inserts the entry at the front and returns position 1. -/
theorem add_entry_fifo_with_head_insert :
    ((add_entry ((add_entry ((add_entry [] 0 false).1) 1 false).1) 2 true).1
        = [2, 0, 1])
    ∧ ∀ (q : List Nat) (e : Nat),
        add_entry q e false = (q ++ [e], q.length + 1)
        ∧ add_entry q e true = (e :: q, 1) := by
  refine ⟨rfl, fun q e => ⟨?_, rfl⟩⟩
  simp [add_entry]

/-! ## C2: bulk import order -/

/-- C2 (failing input): importing the listing [x1, x2, x3] in which x2 fails
to construct. At the tail the surviving entries come back as [x1, x3], but at
the head the call returns [x3, x1] and leaves the queue as [x3, x1]: the
source builds a reversed copy of the listing for the head case and then
iterates the original listing anyway, so the final un-reversal of entry_list
reverses a list that was never reversed. -/
theorem import_from_head_order :
    import_from [] [some ⟨1, true⟩, some ⟨2, false⟩, some ⟨3, true⟩] true =
      { entry_list := [3, 1], position := 1, queue := [3, 1], baditems := 1 }
    ∧ import_from [] [some ⟨1, true⟩, some ⟨2, false⟩, some ⟨3, true⟩] false =
      { entry_list := [1, 3], position := 1, queue := [1, 3], baditems := 1 } :=
  ⟨rfl, rfl⟩

/-! ## C3 / C4: ETA estimation -/

/-- C3 (counterexample): for the queue [e1(30), e2(45), e3(unknown)] with no
current entry accounted, estimate_wait(3) does NOT fail with InsufficientData:
only e1 and e2 lie strictly before position 3, so it returns 75 seconds. -/
theorem estimate_wait_three_succeeds :
    estimate_time_until [some 30, some 45, none] 3 none = Except.ok 75 := rfl

/-- C3 (amended): for the queue [e1(30), e2(45), e3(unknown)] with no current
entry accounted, estimate_wait(1) = 0s, estimate_wait(2) = 30s,
estimate_wait(3) = 75s, and the first position that fails with
InsufficientData is position 4, the first position that e3 lies strictly
before. -/
theorem estimate_wait_queue_profile :
    estimate_time_until [some 30, some 45, none] 1 none = Except.ok 0
    ∧ estimate_time_until [some 30, some 45, none] 2 none = Except.ok 30
    ∧ estimate_time_until [some 30, some 45, none] 3 none = Except.ok 75
    ∧ estimate_time_until [some 30, some 45, none] 4 none
        = Except.error "no duration data" :=
  ⟨rfl, rfl, rfl, rfl⟩

/-- C4: for every queue and 1-based position, estimate_wait fails iff some
entry strictly before the position has unknown (None) duration or the
accounted current entry has unknown duration — a zero duration never triggers
the failure — and on success it returns the sum of the durations strictly
before the position plus, when a current entry is accounted, that entry's
duration minus the elapsed progress. -/
theorem estimate_wait_characterization (entries : List (Option Int))
    (pos : Nat) (playing : Option (Option Int × Int)) (_hpos : 1 ≤ pos) :
    ((estimate_time_until entries pos playing).isOk = false ↔
        none ∈ entries.take (pos - 1) ∨ ∃ p, playing = some (none, p))
    ∧ (playing = none → none ∉ entries.take (pos - 1) →
        estimate_time_until entries pos playing =
          Except.ok ((entries.take (pos - 1)).map (fun e => e.getD 0)).sum)
    ∧ (∀ d p, playing = some (some d, p) → none ∉ entries.take (pos - 1) →
        estimate_time_until entries pos playing =
          Except.ok (((entries.take (pos - 1)).map (fun e => e.getD 0)).sum
            + (d - p))) := by
  have hmemiff : ((entries.take (pos - 1)).any (fun e => e.isNone) = true)
      ↔ none ∈ entries.take (pos - 1) := by
    simp [List.any_eq_true, Option.isNone_iff_eq_none]
  by_cases hc : (entries.take (pos - 1)).any (fun e => e.isNone) = true
  · have hmem := hmemiff.mp hc
    refine ⟨?_, fun _ hnm => absurd hmem hnm, fun d p _ hnm => absurd hmem hnm⟩
    unfold estimate_time_until
    simp only [hc, if_true]
    exact ⟨fun _ => Or.inl hmem, fun _ => rfl⟩
  · have hnm : none ∉ entries.take (pos - 1) :=
      fun hmem => hc (hmemiff.mpr hmem)
    have hcf : (entries.take (pos - 1)).any (fun e => e.isNone) = false :=
      Bool.eq_false_iff.mpr hc
    refine ⟨?_, ?_, ?_⟩
    · unfold estimate_time_until
      simp only [hcf]
      cases playing with
      | none => simp [Except.isOk, Except.toBool, hnm]
      | some q =>
        obtain ⟨dur, prog⟩ := q
        cases dur with
        | none => simp [Except.isOk, Except.toBool, hnm]
        | some d => simp [Except.isOk, Except.toBool, hnm]
    · intro hp hnm2
      subst hp
      unfold estimate_time_until
      simp [hcf]
    · intro d p hp hnm2
      subst hp
      unfold estimate_time_until
      simp [hcf]

/-- C4 witness: in the queue [e1(0), e2(5)] a zero duration counts as known
data: estimate_wait(3) with an accounted current entry of duration 10 and
progress 4 succeeds and returns 0 + 5 + (10 - 4) = 11 seconds. -/
theorem estimate_wait_characterization_witness :
    estimate_time_until [some 0, some 5] 3 (some (some 10, 4)) =
      Except.ok 11 := by
  have h := (estimate_wait_characterization [some 0, some 5] 3
      (some (some 10, 4)) (by decide)).2.2 10 4 rfl (by decide)
  simpa using h

/-! ## C10: extraction dispatcher error hook -/

/-- C10: with a callable error hook supplied and the retry flag unset, a
failing extraction neither raises to the caller nor retries through the
tolerant path: the exception is routed to the hook and the call returns None
instead of a result map. -/
theorem extract_info_hook_no_raise (e safeResult : Nat) :
    extract_info true false (ExtractOutcome.raises e) safeResult =
      { returned := Except.ok none, hookCalls := [e], safeRetry := false } :=
  rfl

/-! ## C7: once registration -/

/-- C7 (code bug, evaluated at the failing input): register a callback via
once("song", f) and publish "song" twice. The wrapper that once registered
calls off with the original callback, which was never itself registered, so
list.remove raises ValueError; emit catches it, the wrapped body is never
reached, and the wrapper stays registered: after both publishes the
invocation log is still empty and the wrapper is still subscribed. -/
theorem once_callback_never_fires :
    ((emit (once { events := [], calls := [] } "song" 7) "song").calls = [])
    ∧ (lookupEvent
        (emit (once { events := [], calls := [] } "song" 7) "song").events
        "song" = some [Cb.onceWrapper "song" 7])
    ∧ ((emit (emit (once { events := [], calls := [] } "song" 7) "song")
        "song").calls = []) :=
  ⟨rfl, rfl, rfl⟩

/-! ## C8: publish isolation -/

/-- Helper: folding invoke over direct (non-wrapper) callbacks appends every
callback's body id to the call log, raising callbacks included. -/
theorem foldl_invoke_direct (l : List Cb) (s : Emitter)
    (h : ∀ cb ∈ l, cb.isDirect = true) :
    (l.foldl (fun st cb => (invoke st cb).1) s).calls
      = s.calls ++ l.map Cb.cbId := by
  induction l generalizing s with
  | nil => simp
  | cons cb rest ih =>
    have hcb : cb.isDirect = true := h cb (List.mem_cons_self cb rest)
    have hrest : ∀ c ∈ rest, c.isDirect = true :=
      fun c hc => h c (List.mem_cons_of_mem cb hc)
    match cb with
    | Cb.plain i =>
      have step : (List.foldl (fun st cb => (invoke st cb).1) s
            (Cb.plain i :: rest)).calls
          = (List.foldl (fun st cb => (invoke st cb).1)
              { s with calls := s.calls ++ [i] } rest).calls := rfl
      rw [step, ih _ hrest]
      simp [Cb.cbId]
    | Cb.bad i =>
      have step : (List.foldl (fun st cb => (invoke st cb).1) s
            (Cb.bad i :: rest)).calls
          = (List.foldl (fun st cb => (invoke st cb).1)
              { s with calls := s.calls ++ [i] } rest).calls := rfl
      rw [step, ih _ hrest]
      simp [Cb.cbId]
    | Cb.onceWrapper ev i => simp [Cb.isDirect] at hcb

/-- C8: publish invokes every callback registered for the event — a
synchronous callback that raises neither propagates to the publisher (emit is
a total function on emitter states) nor prevents any sibling from running:
the call log gains every registered body id in registration order — and
publishing an event with no registered callbacks leaves the state unchanged. -/
theorem emit_fire_and_forget (s : Emitter) (ev : String) :
    (lookupEvent s.events ev = none → emit s ev = s)
    ∧ (∀ l, lookupEvent s.events ev = some l →
        (∀ cb ∈ l, cb.isDirect = true) →
        (emit s ev).calls = s.calls ++ l.map Cb.cbId) := by
  constructor
  · intro h
    unfold emit
    rw [h]
  · intro l hl hdir
    unfold emit
    rw [hl]
    exact foldl_invoke_direct l s hdir

/-- C8 witness: publishing "e" to an emitter holding [plain 1, bad 2, plain 3]
invokes all three bodies even though the second raises. -/
theorem emit_fire_and_forget_witness :
    (emit ⟨[("e", [Cb.plain 1, Cb.bad 2, Cb.plain 3])], []⟩ "e").calls
      = [1, 2, 3] :=
  (emit_fire_and_forget ⟨[("e", [Cb.plain 1, Cb.bad 2, Cb.plain 3])], []⟩
      "e").2 [Cb.plain 1, Cb.bad 2, Cb.plain 3] rfl (by decide)

/-! ## C5: advance / prefetch -/

/-- Helper: a readiness request never changes an entry's identity. -/
theorem requestReady_eid (e : PlEntry) : (requestReady e).1.eid = e.eid := by
  unfold requestReady
  by_cases h : (if e.isDownloading then false else e.filename.isSome) = true
  · rw [if_pos h]
  · rw [if_neg h]

/-- Helper: after a readiness request the entry has an in-flight readiness
future or is already downloaded. -/
theorem requestReady_ready (e : PlEntry) :
    0 < (requestReady e).1.waitingCount
    ∨ ((requestReady e).1.filename.isSome
        ∧ (requestReady e).1.isDownloading = false) := by
  unfold requestReady
  by_cases h : (if e.isDownloading then false else e.filename.isSome) = true
  · rw [if_pos h]
    right
    by_cases hd : e.isDownloading
    · rw [if_pos hd] at h
      exact absurd h (by simp)
    · rw [if_neg hd] at h
      exact ⟨h, by simpa using hd⟩
  · rw [if_neg h]
    left
    exact Nat.succ_pos e.waitingCount

/-- C5: on a non-empty queue, get_next_entry pops the head permanently (the
queue becomes exactly the tail, the popped entry id is gone from every
subsequent peek or enumeration given distinct allocations), requests
readiness of the new head when one exists (leaving it with an in-flight or
completed readiness request and the rest of the tail untouched), and returns
the popped entry with its own readiness requested (resolving immediately only
if it was already downloaded); on an empty queue it returns none and leaves
the queue empty. -/
theorem get_next_entry_spec (entries : List PlEntry)
    (hnd : (entries.map PlEntry.eid).Nodup) :
    (entries = [] → get_next_entry entries true = (none, []))
    ∧ (∀ e rest, entries = e :: rest →
        ((get_next_entry entries true).2.map PlEntry.eid
            = rest.map PlEntry.eid)
        ∧ e.eid ∉ (get_next_entry entries true).2.map PlEntry.eid
        ∧ (∃ e2 imm, (get_next_entry entries true).1 = some (e2, imm)
            ∧ e2.eid = e.eid
            ∧ (imm = true →
                e.isDownloading = false ∧ e.filename.isSome = true)
            ∧ (imm = false → e2.waitingCount = e.waitingCount + 1))
        ∧ (∀ nh t, rest = nh :: t →
            ∃ nh2, (get_next_entry entries true).2 = nh2 :: t
              ∧ nh2.eid = nh.eid
              ∧ (0 < nh2.waitingCount
                 ∨ (nh2.filename.isSome ∧ nh2.isDownloading = false)))) := by
  constructor
  · intro h
    subst h
    rfl
  · intro e rest hsplit
    subst hsplit
    have hq2 : (get_next_entry (e :: rest) true).2 =
        (match rest with
          | [] => []
          | nxt :: t => (requestReady nxt).1 :: t) := by
      cases rest with
      | nil => rfl
      | cons nxt t => rfl
    have hmapeq : (get_next_entry (e :: rest) true).2.map PlEntry.eid
        = rest.map PlEntry.eid := by
      rw [hq2]
      cases rest with
      | nil => rfl
      | cons nxt t => simp [requestReady_eid]
    refine ⟨hmapeq, ?_, ?_, ?_⟩
    · rw [hmapeq]
      have := List.nodup_cons.mp hnd
      exact this.1
    · refine ⟨(requestReady e).1, (requestReady e).2, rfl,
        requestReady_eid e, ?_, ?_⟩
      · intro himm
        unfold requestReady at himm
        by_cases h : (if e.isDownloading then false
            else e.filename.isSome) = true
        · by_cases hd : e.isDownloading
          · rw [if_pos hd] at h
            exact absurd h (by simp)
          · rw [if_neg hd] at h
            exact ⟨by simpa using hd, h⟩
        · rw [if_neg h] at himm
          exact absurd himm (by simp)
      · intro himm
        unfold requestReady at himm ⊢
        by_cases h : (if e.isDownloading then false
            else e.filename.isSome) = true
        · rw [if_pos h] at himm
          exact absurd himm (by simp)
        · rw [if_neg h]
    · intro nh t ht
      subst ht
      refine ⟨(requestReady nh).1, ?_, requestReady_eid nh,
        requestReady_ready nh⟩
      rw [hq2]

/-- C5 witness: advancing the 3-entry queue [e0 (downloaded), e1, e2] leaves
exactly [e1, e2] (by id), with e0 gone from the enumeration. -/
theorem get_next_entry_spec_witness :
    ((get_next_entry [⟨0, some "a", false, 0⟩, ⟨1, none, false, 0⟩,
        ⟨2, none, false, 0⟩] true).2.map PlEntry.eid = [1, 2])
    ∧ 0 ∉ ((get_next_entry [⟨0, some "a", false, 0⟩, ⟨1, none, false, 0⟩,
        ⟨2, none, false, 0⟩] true).2.map PlEntry.eid) := by
  have h := (get_next_entry_spec [⟨0, some "a", false, 0⟩,
      ⟨1, none, false, 0⟩, ⟨2, none, false, 0⟩] (by decide)).2
      ⟨0, some "a", false, 0⟩ [⟨1, none, false, 0⟩, ⟨2, none, false, 0⟩] rfl
  exact ⟨h.1, h.2.1⟩

/-! ## C1: at-most-one download -/

/-- Helper: after n readiness requests on a fresh (never-downloaded) entry,
the waiting list holds the n created futures, all still pending, and n
download tasks have been scheduled while none has executed yet. -/
theorem get_ready_future_iter (n : Nat) :
    (fun w => (get_ready_future w).1)^[n] freshEntryWorld =
      { entry := { filename := none, isDownloading := false,
                   waitingFutures := List.range n },
        futures := (List.range n).map
          (fun i => (i, (none : Option (Except Nat Unit)))),
        nextFid := n, spawnedTasks := n, downloadExecs := 0 } := by
  induction n with
  | zero => rfl
  | succ k ih =>
    rw [Function.iterate_succ_apply', ih]
    unfold get_ready_future is_downloaded
    simp [List.range_succ]

/-- Helper: the guard slice of the URL download is a no-op for every task that
runs while another task is already downloading. -/
theorem urlDownloadStart_fixed (w : EntryWorld)
    (h : w.entry.isDownloading = true) :
    (fun v => (urlDownloadStart v).1) w = w := by
  unfold urlDownloadStart
  simp [h]

/-- Helper: when k download tasks run their guard slice in sequence on an
entry that is not downloading, only the first one enters the body; the other
k - 1 see the flag and return. -/
theorem urlDownloadStart_iter (k : Nat) (w : EntryWorld)
    (h : w.entry.isDownloading = false) (hk : 1 ≤ k) :
    (fun v => (urlDownloadStart v).1)^[k] w =
      { w with
          entry := { w.entry with isDownloading := true }
          downloadExecs := w.downloadExecs + 1 } := by
  obtain ⟨j, rfl⟩ : ∃ j, k = j + 1 :=
    ⟨k - 1, (Nat.succ_pred_eq_of_pos hk).symm⟩
  rw [Function.iterate_succ_apply]
  have h1 : (urlDownloadStart w).1 =
      { w with
          entry := { w.entry with isDownloading := true }
          downloadExecs := w.downloadExecs + 1 } := by
    unfold urlDownloadStart
    simp [h]
  rw [h1]
  exact Function.iterate_fixed (urlDownloadStart_fixed _ rfl) j

/-- Helper: resolving the complete pending-future range marks every future
with the same terminal result. -/
theorem resolveFutures_range (n : Nat) (res : Except Nat Unit) :
    resolveFutures ((List.range n).map
        (fun i => (i, (none : Option (Except Nat Unit)))))
      (List.range n) res
      = (List.range n).map (fun i => (i, some res)) := by
  unfold resolveFutures
  rw [List.map_map]
  apply List.map_congr_left
  intro i hi
  simp [Function.comp, List.mem_range.mp hi, List.mem_range]

/-- Helper: the complete URL scenario state for at least one concurrent
readiness request. -/
theorem urlScenario_eq (n : Nat) (outcome : Except Nat String) (h : 1 ≤ n) :
    urlScenario n outcome =
      { entry := { filename := (match outcome with
                    | Except.ok f => some f
                    | Except.error _ => none),
                   isDownloading := false, waitingFutures := [] },
        futures := (List.range n).map (fun i => (i, some (match outcome with
                    | Except.ok _ => Except.ok ()
                    | Except.error e => Except.error e))),
        nextFid := n, spawnedTasks := n, downloadExecs := 1 } := by
  unfold urlScenario
  rw [get_ready_future_iter n]
  dsimp only
  rw [urlDownloadStart_iter n _ rfl h]
  dsimp only
  rw [Function.iterate_one]
  unfold urlDownloadFinish
  dsimp only
  rw [resolveFutures_range n]

/-- C1 (amended, URL variant): N concurrent readiness requests (N ≥ 1) on a
not-yet-downloaded URL entry execute the underlying download exactly once —
the guard slice of every later task sees the _is_downloading flag — and all N
created futures resolve to the same terminal outcome (the entry on success,
the downloading exception on failure). -/
theorem url_at_most_one_download (n : Nat) (outcome : Except Nat String)
    (h : 1 ≤ n) :
    (urlScenario n outcome).downloadExecs = 1
    ∧ (urlScenario n outcome).futures.length = n
    ∧ ∀ p ∈ (urlScenario n outcome).futures,
        p.2 = some (match outcome with
          | Except.ok _ => Except.ok ()
          | Except.error e => Except.error e) := by
  rw [urlScenario_eq n outcome h]
  refine ⟨rfl, by simp, ?_⟩
  intro p hp
  rcases List.mem_map.mp hp with ⟨i, _, rfl⟩
  rfl

/-- C1 witness: two concurrent readiness requests on a fresh URL entry whose
download succeeds: one download execution, both futures resolved with the
entry. -/
theorem url_at_most_one_download_witness :
    (urlScenario 2 (Except.ok "f")).downloadExecs = 1
    ∧ (urlScenario 2 (Except.ok "f")).futures.length = 2
    ∧ ∀ p ∈ (urlScenario 2 (Except.ok "f")).futures,
        p.2 = some (Except.ok ()) :=
  url_at_most_one_download 2 (Except.ok "f") (by decide)

/-- C1 (counterexample): the claim fails for the Stream variant. Two
concurrent readiness requests on a fresh stream entry (no destination) lead
to TWO download executions — StreamPlaylistEntry._download has no re-entrancy
guard — and both created futures are still unresolved afterwards, because the
stream download never touches _waiting_futures. -/
theorem stream_downloads_twice :
    (streamScenario 2 "u").downloadExecs = 2
    ∧ (streamScenario 2 "u").futures = [(0, none), (1, none)] :=
  ⟨rfl, rfl⟩

/-! ## C9: per-record decode failure -/

/-- Helper: when two record segments both decode without an escaping
exception, their concatenation decodes to the concatenation of the results
(the object hook processes records in document order). -/
theorem decodeQueue_append_ok (saveVideos : Bool) (rs1 rs2 : List JObj)
    (vs1 vs2 : List Decoded)
    (h1 : decodeQueue saveVideos rs1 = Except.ok vs1)
    (h2 : decodeQueue saveVideos rs2 = Except.ok vs2) :
    decodeQueue saveVideos (rs1 ++ rs2) = Except.ok (vs1 ++ vs2) := by
  induction rs1 generalizing vs1 with
  | nil =>
    unfold decodeQueue at h1
    cases h1
    simpa using h2
  | cons r rest ih =>
    rw [List.cons_append]
    unfold decodeQueue at h1 ⊢
    cases hs : serializerDeserialize saveVideos r with
    | error e =>
      rw [hs] at h1
      exact absurd h1 (by simp)
    | ok v =>
      rw [hs] at h1
      cases hrest : decodeQueue saveVideos rest with
      | error e =>
        rw [hrest] at h1
        exact absurd h1 (by simp)
      | ok vs =>
        rw [hrest] at h1
        cases h1
        rw [ih vs hrest]
        rfl

/-- C9 (counterexample): a per-entry record tagged
musicbot.entry.BasePlaylistEntry has a discriminator matching no known entry
variant, yet decoding it does not soft-fail that one record: pydoc.locate
resolves the class, issubclass passes, and the inherited
Serializable._deserialize raises NotImplementedError uncaught, aborting the
whole queue decode — the following well-formed record is never
reconstructed. -/
theorem decode_aborts_on_base_entry_tag :
    decodeQueue false [goodUrlRecord, baseEntryRecord, goodUrlRecord2]
      = Except.error DecodeErr.notImplemented := rfl

/-- C9 (amended): a per-entry record whose type discriminator resolves to no
class (or to a non-Serializable one), or whose required payload fields are
absent, fails only that one record as a soft failure — replacing such a
record changes only its own slot, the rest of the queue's entries are still
reconstructed and decoding does not abort; but a discriminator naming a
Serializable class other than the two entry variants escapes as an uncaught
exception and aborts the whole decode, so the soft-failure guarantee is
scoped to unresolvable discriminators and missing fields. -/
theorem decode_soft_failure_scoped (saveVideos : Bool) (rs1 rs2 : List JObj)
    (r : JObj) :
    (∀ v vs1 vs2,
        serializerDeserialize saveVideos r = Except.ok v →
        decodeQueue saveVideos rs1 = Except.ok vs1 →
        decodeQueue saveVideos rs2 = Except.ok vs2 →
        decodeQueue saveVideos (rs1 ++ r :: rs2)
          = Except.ok (vs1 ++ v :: vs2))
    ∧ (∀ c m d,
        r = { className := some c, moduleName := some m, data := some d } →
        locateClass (m ++ "." ++ c) = none →
        serializerDeserialize saveVideos r = Except.ok (Decoded.raw r))
    ∧ (∀ c m d,
        r = { className := some c, moduleName := some m, data := some d } →
        m ++ "." ++ c = "musicbot.entry.URLPlaylistEntry" →
        getKey d.fields "url" = Except.error () →
        serializerDeserialize saveVideos r = Except.ok Decoded.failed) := by
  refine ⟨?_, ?_, ?_⟩
  · intro v vs1 vs2 hr h1 h2
    have hmid : decodeQueue saveVideos (r :: rs2) = Except.ok (v :: vs2) := by
      unfold decodeQueue
      rw [hr, h2]
    exact decodeQueue_append_ok saveVideos rs1 (r :: rs2) vs1 (v :: vs2)
      h1 hmid
  · intro c m d hr hloc
    subst hr
    unfold serializerDeserialize
    dsimp only
    rw [hloc]
  · intro c m d hr hu hkey
    subst hr
    unfold serializerDeserialize
    dsimp only
    rw [hu]
    have hloc : locateClass "musicbot.entry.URLPlaylistEntry"
        = some KnownClass.urlEntryClass := by decide
    rw [hloc]
    unfold urlDeserialize urlDeserializeBody
    rw [hkey]
    rfl

/-- C9 witness: a queue of four records — a well-formed URL record, a record
with an unresolvable discriminator, a URL record missing its url field, and a
second well-formed URL record — decodes without aborting: the two bad records
fail individually as raw data and the soft None marker, and both good
neighbours are still reconstructed. -/
theorem decode_soft_failure_scoped_witness :
    (decodeQueue false
        ([goodUrlRecord]
          ++ unknownRecord :: [missingUrlRecord, goodUrlRecord2])
      = Except.ok
          [Decoded.urlEntry ⟨JLit.str "https4", JLit.str "t1", JLit.num 30,
            JLit.str "a.m4a", none, none, none⟩,
           Decoded.raw unknownRecord,
           Decoded.failed,
           Decoded.urlEntry ⟨JLit.str "https5", JLit.str "t2", JLit.num 45,
            JLit.str "b.m4a", none, none, none⟩])
    ∧ serializerDeserialize false missingUrlRecord
        = Except.ok Decoded.failed := by
  have hraw := (decode_soft_failure_scoped false [goodUrlRecord]
      [missingUrlRecord, goodUrlRecord2] unknownRecord).2.1
      "FilePlaylistEntry" "musicbot.entry"
      { fields := [("url", JLit.str "x")], meta := some [] } rfl (by decide)
  have hfail := (decode_soft_failure_scoped false [goodUrlRecord]
      [missingUrlRecord, goodUrlRecord2] missingUrlRecord).2.2
      "URLPlaylistEntry" "musicbot.entry"
      { fields := [("title", JLit.str "t3")], meta := some [] } rfl
      (by decide) rfl
  have hmain := (decode_soft_failure_scoped false [goodUrlRecord]
      [missingUrlRecord, goodUrlRecord2] unknownRecord).1
      (Decoded.raw unknownRecord)
      [Decoded.urlEntry ⟨JLit.str "https4", JLit.str "t1", JLit.num 30,
        JLit.str "a.m4a", none, none, none⟩]
      [Decoded.failed,
       Decoded.urlEntry ⟨JLit.str "https5", JLit.str "t2", JLit.num 45,
        JLit.str "b.m4a", none, none, none⟩]
      hraw rfl rfl
  exact ⟨hmain, hfail⟩

end MusicBot
